import Mathlib

/-!
Shallow embedding of `scripts/export_tableau_tables.py`: the aggregation
pipeline that turns the cleaned job-postings dataset into the twelve
Tableau source tables.  Pandas dataframes are modelled as lists of rows
and numeric shares as rationals; the one NaN the script can produce — the
`mean()` of an empty column — is modelled as `Option.none`.  Pandas sorts
are modelled as stable sorts: the script's default `kind="quicksort"`
guarantees the key ordering but no particular order among tied keys, and
every property proved below (sums, memberships, row counts, key
sortedness) is insensitive to the order of ties.
A pandas `KeyError` (column lookup on a missing pivot column) is modelled
by `Option`: `none` is the raised error.
-/

namespace TableauExport

/-- One row of `data/processed/jsearch_cleaned_with_skills.csv` after
loading (script line 59).  `skills` holds the values of the
boolean skill columns, in the order of the dataframe's skill-column list;
the timestamp is kept opaque. -/
structure Posting where
  id : Nat
  title : String
  country_name : String
  country_code : String
  experience_group : String
  is_remote : Bool
  is_full_time : Bool
  is_part_time : Bool
  is_contractor : Bool
  is_internship : Bool
  posted_at_datetime_utc : String
  skills : List Bool
deriving DecidableEq

/-- The loaded dataframe: the discovered skill-column names
(`skill_cols`, script line 62) plus the rows. -/
structure DataFrame where
  skillCols : List String
  rows : List Posting
deriving DecidableEq

/-- Label-based access `row[c]` to a skill column: the value of the first
skill column named `c`, `false` when no such column exists (the script only
reads columns it has checked are present). -/
def flagOf (df : DataFrame) (p : Posting) (c : String) : Bool :=
  p.skills.getD (df.skillCols.findIdx (fun c2 => c2 == c)) false

/-- `df["skills_count"] = df[skill_cols].sum(axis=1)` (script line 63):
the number of true skill flags of a posting. -/
def skillsCount (p : Posting) : Nat :=
  p.skills.countP (fun b => b)

/-- `SKILL_CATEGORIES` (script lines 33-53): the static taxonomy mapping a
category name to its ordered member skill identifiers. -/
def SKILL_CATEGORIES : List (String × List String) :=
  [("Programming", ["sql", "python", "r"]),
   ("Spreadsheets", ["excel", "google_sheets"]),
   ("Databases",
    ["postgresql", "mysql", "oracle", "sql_server", "bigquery",
     "snowflake", "redshift", "vertica", "clickhouse", "databricks", "synapse"]),
   ("Visualisation & BI Tools",
    ["dashboards", "data_visualization", "power_bi", "tableau", "looker",
     "qlik", "datalens", "superset"]),
   ("Data Engineering",
    ["airflow", "hadoop", "spark", "kafka", "dbt",
     "talend", "informatica", "etl", "data_pipeline"]),
   ("AI/ML Tools", ["chatgpt", "claude", "cursor", "copilot", "gemini"]),
   ("Statistics",
    ["statistics", "a_b_testing", "experimentation",
     "hypothesis_testing", "data_cleaning"])]

/-- `sort_values(key, ascending=False)`: some permutation of the rows
whose keys are non-increasing.  The script's default `kind="quicksort"`
fixes no order among tied keys, so the sort is modelled as one concrete
such permutation (a stable descending insertion sort); no property proved
below depends on the order of ties. -/
def sortValuesDesc {α β : Type} [LinearOrder β] (key : α → β) (l : List α) : List α :=
  l.insertionSort (fun a b => key b ≤ key a)

/-- `sort_values(key, ascending=True)` / `sort_index()`: stable ascending
sort by the key. -/
def sortValuesAsc {α β : Type} [LinearOrder β] (key : α → β) (l : List α) : List α :=
  l.insertionSort (fun a b => key a ≤ key b)

/-- `Series.sort_values(ascending=False)` for a possibly-NaN rational key
(`none` models NaN): pandas sorts the non-NaN entries descending by key
and appends the NaN entries after them in their original order
(`na_position="last"`). -/
def sortValuesDescNa {α : Type} (key : α → Option ℚ) (l : List α) : List α :=
  sortValuesDesc (fun a => (key a).getD 0) (l.filter (fun a => (key a).isSome))
    ++ l.filter (fun a => (key a).isNone)

/-- `Series.value_counts()`: one `(value, count)` pair per distinct value of
the column, sorted descending by count. -/
def valueCounts {α : Type} [DecidableEq α] (l : List α) : List (α × Nat) :=
  sortValuesDesc (fun p => p.2) (l.dedup.map (fun v => (v, l.count v)))

/-- One row of a categorical distribution table
(`agg_country` / `agg_experience` / `agg_remote` / `agg_skills_count_dist`):
a distinct value of the grouped column, its count, and its share. -/
structure DistRow (α : Type) where
  value : α
  count : Nat
  share : ℚ
deriving DecidableEq

/-- `agg["count"].sum()`: the denominator used by the distribution
tables (script lines 89, 102, 115). -/
def distTotal {α : Type} [DecidableEq α] (vals : List α) : ℚ :=
  ((valueCounts vals).map (fun p => (p.2 : ℚ))).sum

/-- The shared shape of script sections 2-4: `value_counts()` plus
`share = count / count.sum() * 100`. -/
def distTable {α : Type} [DecidableEq α] (vals : List α) : List (DistRow α) :=
  (valueCounts vals).map (fun p => ⟨p.1, p.2, (p.2 : ℚ) / distTotal vals * 100⟩)

/-- `agg_country` (script lines 83-89). -/
def agg_country (df : DataFrame) : List (DistRow String) :=
  distTable (df.rows.map Posting.country_name)

/-- `agg_experience` (script lines 96-102). -/
def agg_experience (df : DataFrame) : List (DistRow String) :=
  distTable (df.rows.map Posting.experience_group)

/-- `agg_remote` (script lines 109-115). -/
def agg_remote (df : DataFrame) : List (DistRow Bool) :=
  distTable (df.rows.map Posting.is_remote)

/-- `agg_skills_count_dist` (script lines 229-236):
`value_counts().sort_index()` of `skills_count`, with
`share = count / n_total * 100` where `n_total = len(df)`. -/
def agg_skills_count_dist (df : DataFrame) : List (DistRow Nat) :=
  (sortValuesAsc (fun p => p.1) (valueCounts (df.rows.map skillsCount))).map
    (fun p => ⟨p.1, p.2, (p.2 : ℚ) / (df.rows.length : ℚ) * 100⟩)

/-- One row of `fact_job_postings`. -/
structure FactRow where
  id : Nat
  title : String
  country_name : String
  country_code : String
  experience_group : String
  is_remote : Bool
  is_full_time : Bool
  is_part_time : Bool
  is_contractor : Bool
  is_internship : Bool
  skills_count : Nat
  posted_at_datetime_utc : String
deriving DecidableEq

/-- `fact_job_postings = df[fact_cols].copy()` (script lines 70-76): the
per-posting column projection, one output row per input row. -/
def fact_job_postings (df : DataFrame) : List FactRow :=
  df.rows.map (fun p =>
    ⟨p.id, p.title, p.country_name, p.country_code, p.experience_group,
     p.is_remote, p.is_full_time, p.is_part_time, p.is_contractor, p.is_internship,
     skillsCount p, p.posted_at_datetime_utc⟩)

/-- Non-overlapping left-to-right removal of every occurrence of the
6-character pattern `skill_`, on the character list of a column name. -/
def stripAll : List Char → List Char
  | 's' :: 'k' :: 'i' :: 'l' :: 'l' :: '_' :: rest => stripAll rest
  | c :: rest => c :: stripAll rest
  | [] => []

/-- `name.replace("skill_", "", regex=False)` (script lines 125, 150, 167,
178): the display name of a skill column. -/
def stripSkill (c : String) : String :=
  String.mk (stripAll c.data)

/-- One row of `agg_top_skills`: column name, total count, mean share,
display name. -/
structure SkillRow where
  skill_name : String
  count : Nat
  share : ℚ
  skill : String
deriving DecidableEq

/-- `df[c].sum()` for a boolean skill column: the number of postings with
the flag set. -/
def skillSum (df : DataFrame) (c : String) : Nat :=
  df.rows.countP (fun p => flagOf df p c)

/-- `df[skill_cols].agg(["sum", "mean"]).T` plus `share * 100` and the
display name (script lines 122-125), one row per skill column in schema
order, before sorting. -/
def topSkillRows (df : DataFrame) : List SkillRow :=
  df.skillCols.map (fun c =>
    ⟨c, skillSum df c, (skillSum df c : ℚ) / (df.rows.length : ℚ) * 100, stripSkill c⟩)

/-- `agg_top_skills` (script lines 122-127): the per-skill rows sorted
descending by count. -/
def agg_top_skills (df : DataFrame) : List SkillRow :=
  sortValuesDesc SkillRow.count (topSkillRows df)

/-- One row of the long-format `agg_skills_by_country`. -/
structure SkillCountryRow where
  skill_name : String
  country_name : String
  count : Nat
  share : ℚ
  skill : String
deriving DecidableEq

/-- `df.groupby("country_name").size()[c]` (script line 144): the number of
postings whose country is `c`. -/
def countryTotal (df : DataFrame) (c : String) : Nat :=
  df.rows.countP (fun p => p.country_name == c)

/-- The `(skill s, country c)` cell of `df.groupby("country_name")[skill_cols].sum()`
(script lines 133-137). -/
def countrySkillCount (df : DataFrame) (c s : String) : Nat :=
  df.rows.countP (fun p => p.country_name == c && flagOf df p s)

/-- The group keys of `df.groupby("country_name")`: the distinct country
values of the data, sorted ascending (pandas `groupby` sorts its keys). -/
def countriesSorted (df : DataFrame) : List String :=
  sortValuesAsc id (df.rows.map Posting.country_name).dedup

/-- The guarded share of script lines 145-148:
`count / country_total * 100 if country_total > 0 else 0`. -/
def guardedShare (cnt tot : Nat) : ℚ :=
  if 0 < tot then (cnt : ℚ) / (tot : ℚ) * 100 else 0

/-- `agg_skills_by_country` (script lines 133-152): the melt of the
skill × country pivot — for each country (melt variable) one row per skill
column, including zero-count cells. -/
def agg_skills_by_country (df : DataFrame) : List SkillCountryRow :=
  (countriesSorted df).flatMap (fun c =>
    df.skillCols.map (fun s =>
      ⟨s, c, countrySkillCount df c s,
       guardedShare (countrySkillCount df c s) (countryTotal df c),
       stripSkill s⟩))

/-- The group keys of `df.groupby("experience_group")`: the distinct
experience values of the data, sorted ascending. -/
def expGroups (df : DataFrame) : List String :=
  sortValuesAsc id (df.rows.map Posting.experience_group).dedup

/-- The subset of rows of one experience group. -/
def groupSubset (df : DataFrame) (g : String) : List Posting :=
  df.rows.filter (fun p => p.experience_group == g)

/-- The `(group g, skill s)` cell of
`df.groupby("experience_group")[skill_cols].mean() * 100` (script line 159). -/
def groupShare (df : DataFrame) (g s : String) : ℚ :=
  (((groupSubset df g).countP (fun p => flagOf df p s) : ℚ)
    / ((groupSubset df g).length : ℚ)) * 100

/-- One row of `agg_skills_gap`. -/
structure GapRow where
  skill_name : String
  junior_share : ℚ
  mid_plus_share : ℚ
  gap : ℚ
  skill : String
deriving DecidableEq

/-- The rows of `gap_df` before sorting (script lines 176-179): one row per
skill column with both pivoted group shares and
`gap = gap_df["mid_plus"] - gap_df["junior"]`. -/
def gapRows (df : DataFrame) : List GapRow :=
  df.skillCols.map (fun s =>
    ⟨s, groupShare df "junior" s, groupShare df "mid_plus" s,
     groupShare df "mid_plus" s - groupShare df "junior" s, stripSkill s⟩)

/-- `agg_skills_gap` (script lines 176-180).  The pivoted `skills_by_exp`
table has one column per experience value present in the data, so the
column lookups `gap_df["mid_plus"]` and `gap_df["junior"]` raise a
`KeyError` (modelled as `none`) unless both groups occur; otherwise the
rows are sorted by `sort_values("gap", key=abs, ascending=False)`. -/
def agg_skills_gap (df : DataFrame) : Option (List GapRow) :=
  if "junior" ∈ expGroups df ∧ "mid_plus" ∈ expGroups df then
    some (sortValuesDesc (fun r => |r.gap|) (gapRows df))
  else none

/-- `cols = [f"skill_{s}" for s in skills if f"skill_{s}" in df.columns]`
(script line 190): the member columns of a category present in the
schema. -/
def presentCols (df : DataFrame) (skills : List String) : List String :=
  (skills.map (fun s => "skill_" ++ s)).filter (fun c => df.skillCols.contains c)

/-- `mentioned = df[cols].max(axis=1)` on boolean columns (script
line 192): the row-wise OR of the category's member flags. -/
def mentionedAny (df : DataFrame) (cols : List String) (p : Posting) : Bool :=
  cols.any (fun c => flagOf df p c)

/-- `int(mentioned.sum())` (script line 194): the number of postings that
mention the category at least once. -/
def categoryCount (df : DataFrame) (cols : List String) : Nat :=
  df.rows.countP (mentionedAny df cols)

/-- `Series.mean()` of a boolean column with `cnt` true entries among `n`
rows: NaN (modelled `none`) when the column is empty, else `cnt / n`. -/
def meanOfCount (cnt n : Nat) : Option ℚ :=
  if n = 0 then none else some ((cnt : ℚ) / (n : ℚ))

/-- `mentioned.mean() * 100` (script line 193); `none` models the NaN that
`mean()` yields on an input with no rows. -/
def categoryShare (df : DataFrame) (cols : List String) : Option ℚ :=
  (meanOfCount (categoryCount df cols) df.rows.length).map (fun m => m * 100)

/-- One row of `agg_skill_categories`; `share = none` models a NaN
share. -/
structure CategoryRow where
  skill_category : String
  share : Option ℚ
  count : Nat
deriving DecidableEq

/-- `agg_skill_categories` (script lines 187-203): one row per taxonomy
category with at least one member column in the schema, sorted descending
by share, with the count mapped back from the count dictionary. -/
def agg_skill_categories (df : DataFrame) : List CategoryRow :=
  sortValuesDescNa CategoryRow.share
    ((SKILL_CATEGORIES.filter (fun e => !(presentCols df e.2).isEmpty)).map
      (fun e => ⟨e.1, categoryShare df (presentCols df e.2),
                 categoryCount df (presentCols df e.2)⟩))

/-- Concrete posting used by witnesses: a US junior posting mentioning
both `sql` and `python`. -/
def pA : Posting :=
  ⟨1, "Data Analyst", "US", "US", "junior", false, true, false, false, false,
   "2024-01-01", [true, true]⟩

/-- Concrete dataset used by witnesses: the single posting `pA` over the
schema `skill_sql`, `skill_python`. -/
def dfA : DataFrame := ⟨["skill_sql", "skill_python"], [pA]⟩

/-- Concrete dataset used by witnesses: one junior and one mid_plus
posting over a single skill column. -/
def dfB : DataFrame :=
  ⟨["skill_sql"],
   [⟨1, "Junior Analyst", "US", "US", "junior", false, true, false, false, false,
     "2024-01-01", [true]⟩,
    ⟨2, "Senior Analyst", "DE", "DE", "mid_plus", true, true, false, false, false,
     "2024-01-02", [false]⟩]⟩

/-- The `agg_skills_by_country` row of `(skill_sql, US)` on `dfA`. -/
def rowSqlUS : SkillCountryRow := ⟨"skill_sql", "US", 1, 100, "sql"⟩

/-- The `agg_skill_categories` row of `Programming` on `dfA`. -/
def rowProg : CategoryRow := ⟨"Programming", some 100, 1⟩

/-- A header-only input: the schema still has `skill_sql`, but there are
no rows (an empty cleaned CSV with headers). -/
def dfE : DataFrame := ⟨["skill_sql"], []⟩

/-! ## Helper lemmas about the sorting and counting primitives -/

theorem sortValuesDesc_perm {α β : Type} [LinearOrder β] (key : α → β) (l : List α) :
    List.Perm (sortValuesDesc key l) l :=
  List.perm_insertionSort _ l

theorem sortValuesAsc_perm {α β : Type} [LinearOrder β] (key : α → β) (l : List α) :
    List.Perm (sortValuesAsc key l) l :=
  List.perm_insertionSort _ l

theorem mem_sortValuesDesc {α β : Type} [LinearOrder β] {key : α → β} {l : List α}
    {x : α} : x ∈ sortValuesDesc key l ↔ x ∈ l :=
  List.mem_insertionSort _

theorem mem_sortValuesAsc {α β : Type} [LinearOrder β] {key : α → β} {l : List α}
    {x : α} : x ∈ sortValuesAsc key l ↔ x ∈ l :=
  List.mem_insertionSort _

theorem sortValuesDesc_sorted {α β : Type} [LinearOrder β] (key : α → β) (l : List α) :
    (sortValuesDesc key l).Pairwise (fun a b => key b ≤ key a) := by
  haveI : IsTotal α (fun a b => key b ≤ key a) := ⟨fun a b => le_total (key b) (key a)⟩
  haveI : IsTrans α (fun a b => key b ≤ key a) := ⟨fun a b c h1 h2 => le_trans h2 h1⟩
  exact List.sorted_insertionSort _ l

theorem sortValuesAsc_sorted {α β : Type} [LinearOrder β] (key : α → β) (l : List α) :
    (sortValuesAsc key l).Pairwise (fun a b => key a ≤ key b) := by
  haveI : IsTotal α (fun a b => key a ≤ key b) := ⟨fun a b => le_total (key a) (key b)⟩
  haveI : IsTrans α (fun a b => key a ≤ key b) := ⟨fun a b c h1 h2 => le_trans h1 h2⟩
  exact List.sorted_insertionSort _ l

theorem valueCounts_perm {α : Type} [DecidableEq α] (l : List α) :
    List.Perm (valueCounts l) (l.dedup.map (fun v => (v, l.count v))) :=
  sortValuesDesc_perm _ _

theorem valueCounts_snd_sum {α : Type} [DecidableEq α] (l : List α) :
    ((valueCounts l).map Prod.snd).sum = l.length := by
  rw [((valueCounts_perm l).map Prod.snd).sum_eq, List.map_map]
  simpa [Function.comp] using List.sum_map_count_dedup_eq_length l

theorem valueCounts_snd_sum_q {α : Type} [DecidableEq α] (l : List α) :
    ((valueCounts l).map (fun p => (p.2 : ℚ))).sum = (l.length : ℚ) := by
  have h : (fun p : α × Nat => (p.2 : ℚ)) = (fun n : Nat => (n : ℚ)) ∘ Prod.snd := rfl
  rw [h, ← List.map_map, ← Nat.cast_list_sum, valueCounts_snd_sum]

theorem distTotal_eq_length {α : Type} [DecidableEq α] (vals : List α) :
    distTotal vals = (vals.length : ℚ) :=
  valueCounts_snd_sum_q vals

theorem sum_map_div_mul {α : Type} (l : List α) (f : α → ℚ) (t k : ℚ) :
    (l.map (fun x => f x / t * k)).sum = (l.map f).sum / t * k := by
  induction l with
  | nil => simp
  | cons a l ih => simp [ih, add_div, add_mul]

theorem distTable_share_sum {α : Type} [DecidableEq α] (vals : List α) (h : vals ≠ []) :
    ((distTable vals).map DistRow.share).sum = 100 := by
  have hlen : (vals.length : ℚ) ≠ 0 :=
    Nat.cast_ne_zero.mpr (fun hn => h (List.length_eq_zero.mp hn))
  rw [distTable, List.map_map]
  have hc : (DistRow.share ∘ fun p : α × Nat =>
        (⟨p.1, p.2, (p.2 : ℚ) / distTotal vals * 100⟩ : DistRow α))
      = fun p : α × Nat => (p.2 : ℚ) / distTotal vals * 100 := rfl
  rw [hc, sum_map_div_mul, valueCounts_snd_sum_q, distTotal_eq_length,
    div_self hlen, one_mul]

theorem skills_count_dist_share_sum (df : DataFrame) (h : df.rows ≠ []) :
    ((agg_skills_count_dist df).map DistRow.share).sum = 100 := by
  have hlen : ((df.rows.map skillsCount).length : ℚ) ≠ 0 := by
    rw [List.length_map]
    exact Nat.cast_ne_zero.mpr (fun hn => h (List.length_eq_zero.mp hn))
  rw [agg_skills_count_dist, List.map_map]
  have hc : (DistRow.share ∘ fun p : Nat × Nat =>
        (⟨p.1, p.2, (p.2 : ℚ) / (df.rows.length : ℚ) * 100⟩ : DistRow Nat))
      = fun p : Nat × Nat => (p.2 : ℚ) / (df.rows.length : ℚ) * 100 := rfl
  rw [hc, sum_map_div_mul,
    ((sortValuesAsc_perm (fun p : Nat × Nat => p.1)
        (valueCounts (df.rows.map skillsCount))).map (fun p : Nat × Nat => (p.2 : ℚ))).sum_eq,
    valueCounts_snd_sum_q]
  rw [List.length_map] at hlen ⊢
  rw [div_self hlen, one_mul]

theorem sum_map_const_nat {α : Type} (l : List α) (k : Nat) :
    (l.map (fun _ => k)).sum = l.length * k := by
  induction l with
  | nil => simp
  | cons a l ih => simp [ih, Nat.succ_mul, Nat.add_comm]

/-! ## Claim theorems -/

/-- C1: for every non-empty input dataset, the `share` column of each of
the distribution tables `agg_country`, `agg_experience`, `agg_remote` and
`agg_skills_count_dist` sums to 100 (exactly, over ℚ). -/
theorem C1_share_normalization (df : DataFrame) (h : df.rows ≠ []) :
    ((agg_country df).map DistRow.share).sum = 100 ∧
    ((agg_experience df).map DistRow.share).sum = 100 ∧
    ((agg_remote df).map DistRow.share).sum = 100 ∧
    ((agg_skills_count_dist df).map DistRow.share).sum = 100 := by
  have hmap : ∀ {γ : Type} (f : Posting → γ), df.rows.map f ≠ [] := by
    intro γ f hn
    exact h (List.map_eq_nil_iff.mp hn)
  exact ⟨distTable_share_sum _ (hmap _), distTable_share_sum _ (hmap _),
    distTable_share_sum _ (hmap _), skills_count_dist_share_sum df h⟩

theorem C1_witness :
    dfA.rows ≠ [] ∧
    (((agg_country dfA).map DistRow.share).sum = 100 ∧
     ((agg_experience dfA).map DistRow.share).sum = 100 ∧
     ((agg_remote dfA).map DistRow.share).sum = 100 ∧
     ((agg_skills_count_dist dfA).map DistRow.share).sum = 100) :=
  ⟨by decide, C1_share_normalization dfA (by decide)⟩

/-- C3: for every input dataset, `agg_skills_by_country` has exactly
(number of skill columns) × (number of distinct country values in the
data) rows — the full cross product, zero-count pairs included. -/
theorem C3_cross_tab_row_count (df : DataFrame) :
    (agg_skills_by_country df).length =
      df.skillCols.length * ((df.rows.map Posting.country_name).dedup).length := by
  rw [agg_skills_by_country, List.flatMap_def, List.length_flatten, List.map_map]
  have hc : ((fun l : List SkillCountryRow => l.length) ∘ fun c =>
        df.skillCols.map (fun s =>
          ⟨s, c, countrySkillCount df c s,
           guardedShare (countrySkillCount df c s) (countryTotal df c),
           stripSkill s⟩))
      = fun _ : String => df.skillCols.length := by
    funext c
    simp [List.length_map]
  rw [hc, sum_map_const_nat, countriesSorted,
    (sortValuesAsc_perm id (df.rows.map Posting.country_name).dedup).length_eq,
    Nat.mul_comm]

/-- C6: the fact-table projection `fact_job_postings` has exactly as many
rows as the input dataset. -/
theorem C6_fact_row_count (df : DataFrame) :
    (fact_job_postings df).length = df.rows.length :=
  List.length_map _ _

theorem mem_sortValuesDescNa {α : Type} {key : α → Option ℚ} {l : List α} {x : α} :
    x ∈ sortValuesDescNa key l ↔ x ∈ l := by
  rw [sortValuesDescNa, List.mem_append, mem_sortValuesDesc]
  constructor
  · rintro (h | h) <;> exact (List.mem_filter.mp h).1
  · intro h
    cases hk : key x with
    | none => exact Or.inr (List.mem_filter.mpr ⟨h, by simp [hk]⟩)
    | some q => exact Or.inl (List.mem_filter.mpr ⟨h, by simp [hk]⟩)

theorem mem_expGroups {df : DataFrame} {g : String} :
    g ∈ expGroups df ↔ g ∈ df.rows.map Posting.experience_group := by
  rw [expGroups, mem_sortValuesAsc, List.mem_dedup]

theorem mem_countriesSorted {df : DataFrame} {c : String} :
    c ∈ countriesSorted df ↔ c ∈ df.rows.map Posting.country_name := by
  rw [countriesSorted, mem_sortValuesAsc, List.mem_dedup]

/-- C9: when the `experience_group` column does not contain both `junior`
and `mid_plus`, the `agg_skills_gap` computation fails with the missing
pivot-column lookup (modelled as `none`) instead of producing a table. -/
theorem C9_gap_requires_both_groups (df : DataFrame)
    (h : ¬("junior" ∈ df.rows.map Posting.experience_group ∧
           "mid_plus" ∈ df.rows.map Posting.experience_group)) :
    agg_skills_gap df = none := by
  rw [agg_skills_gap, if_neg]
  intro hc
  exact h ⟨mem_expGroups.mp hc.1, mem_expGroups.mp hc.2⟩

theorem C9_witness :
    ¬("junior" ∈ dfA.rows.map Posting.experience_group ∧
      "mid_plus" ∈ dfA.rows.map Posting.experience_group) ∧
    agg_skills_gap dfA = none :=
  ⟨by decide, C9_gap_requires_both_groups dfA (by decide)⟩

/-- C4: when both experience groups occur in the input, `agg_skills_gap`
produces a table in which every row's `gap` equals
`mid_plus_share - junior_share`, and the rows are sorted by absolute gap
value, descending. -/
theorem C4_skills_gap (df : DataFrame)
    (hj : "junior" ∈ df.rows.map Posting.experience_group)
    (hm : "mid_plus" ∈ df.rows.map Posting.experience_group) :
    ∃ t, agg_skills_gap df = some t ∧
      (∀ g ∈ t, g.gap = g.mid_plus_share - g.junior_share) ∧
      t.Pairwise (fun a b => |b.gap| ≤ |a.gap|) := by
  refine ⟨sortValuesDesc (fun r => |r.gap|) (gapRows df), ?_, ?_, ?_⟩
  · rw [agg_skills_gap, if_pos ⟨mem_expGroups.mpr hj, mem_expGroups.mpr hm⟩]
  · intro g hg
    have hg2 : g ∈ gapRows df := mem_sortValuesDesc.mp hg
    obtain ⟨s, hs, rfl⟩ := List.mem_map.mp hg2
    rfl
  · exact sortValuesDesc_sorted _ _

theorem C4_witness :
    ∃ t, agg_skills_gap dfB = some t ∧
      (∀ g ∈ t, g.gap = g.mid_plus_share - g.junior_share) ∧
      t.Pairwise (fun a b => |b.gap| ≤ |a.gap|) :=
  C4_skills_gap dfB (by decide) (by decide)

/-- C7: in `agg_skills_by_country` every row's share is its count divided
by the row's country posting total times 100 — the total is always
positive because the countries come from the data — and the zero-total
branch of the guarded share is defined as 0 rather than an error. -/
theorem C7_country_share_guard (df : DataFrame) :
    (∀ cnt : Nat, guardedShare cnt 0 = 0) ∧
    (∀ e ∈ agg_skills_by_country df,
      0 < countryTotal df e.country_name ∧
      e.share = (e.count : ℚ) / (countryTotal df e.country_name : ℚ) * 100) := by
  constructor
  · intro cnt
    rw [guardedShare]
    simp
  · intro e he
    rw [agg_skills_by_country] at he
    obtain ⟨c, hc, he2⟩ := List.mem_flatMap.mp he
    obtain ⟨s, hs, rfl⟩ := List.mem_map.mp he2
    obtain ⟨p, hp, hpc⟩ := List.mem_map.mp (mem_countriesSorted.mp hc)
    have hpos : 0 < countryTotal df c := by
      rw [countryTotal]
      exact List.countP_pos_iff.mpr ⟨p, hp, by simp [hpc]⟩
    exact ⟨hpos, by rw [guardedShare, if_pos hpos]⟩

theorem C7_witness :
    guardedShare 3 0 = 0 ∧
    (0 < countryTotal dfA rowSqlUS.country_name ∧
     rowSqlUS.share = (rowSqlUS.count : ℚ) / (countryTotal dfA rowSqlUS.country_name : ℚ) * 100) :=
  ⟨(C7_country_share_guard dfA).1 3,
   (C7_country_share_guard dfA).2 rowSqlUS (by with_unfolding_all decide)⟩

/-- C8: the rows of `agg_skills_count_dist` are strictly increasing (in
particular non-decreasing) in the `skills_count` value column. -/
theorem C8_histogram_ordering (df : DataFrame) :
    (agg_skills_count_dist df).Pairwise (fun a b => a.value < b.value) := by
  rw [agg_skills_count_dist]
  have hle := sortValuesAsc_sorted (fun p : Nat × Nat => p.1)
    (valueCounts (df.rows.map skillsCount))
  have hmapfst : ((df.rows.map skillsCount).dedup.map
        (fun v => (v, (df.rows.map skillsCount).count v))).map Prod.fst
      = (df.rows.map skillsCount).dedup := by
    rw [List.map_map]
    exact List.map_id _
  have hperm : List.Perm
      ((sortValuesAsc (fun p : Nat × Nat => p.1)
        (valueCounts (df.rows.map skillsCount))).map Prod.fst)
      ((df.rows.map skillsCount).dedup) := by
    have h1 := ((sortValuesAsc_perm (fun p : Nat × Nat => p.1)
        (valueCounts (df.rows.map skillsCount))).trans
        (valueCounts_perm (df.rows.map skillsCount))).map Prod.fst
    rw [hmapfst] at h1
    exact h1
  have hnd : ((sortValuesAsc (fun p : Nat × Nat => p.1)
      (valueCounts (df.rows.map skillsCount))).map Prod.fst).Nodup :=
    hperm.nodup_iff.mpr (List.nodup_dedup _)
  have hne : (sortValuesAsc (fun p : Nat × Nat => p.1)
      (valueCounts (df.rows.map skillsCount))).Pairwise (fun p q => p.1 ≠ q.1) :=
    List.pairwise_map.mp hnd
  refine List.pairwise_map.mpr ((hle.and hne).imp ?_)
  intro p q hpq
  exact lt_of_le_of_ne hpq.1 hpq.2

/-- C10 counterexample: on a header-only input (a skill schema but no
rows), `agg_skill_categories` still emits a row for each present
category, and its share is the NaN of `mean()` on an empty column
(modelled `none`) — not a rational in `[0, 100]` and not
count / total × 100.  So the claim fails as stated for empty inputs. -/
theorem C10_counterexample :
    (⟨"Programming", none, 0⟩ : CategoryRow) ∈ agg_skill_categories dfE ∧
    (⟨"Programming", none, 0⟩ : CategoryRow).share = none :=
  ⟨by with_unfolding_all decide, rfl⟩

/-- C10 (amended to non-empty inputs): for a non-empty input dataset,
every row of `agg_skill_categories` has a count of at most the number of
input postings (each posting counted at most once per category), and a
defined share in `[0, 100]` equal to count / total postings × 100. -/
theorem C10_category_bounds (df : DataFrame) (h : df.rows ≠ [])
    (e : CategoryRow) (he : e ∈ agg_skill_categories df) :
    e.count ≤ df.rows.length ∧
    ∃ q : ℚ, e.share = some q ∧ 0 ≤ q ∧ q ≤ 100 ∧
      q = (e.count : ℚ) / (df.rows.length : ℚ) * 100 := by
  rw [agg_skill_categories, mem_sortValuesDescNa] at he
  obtain ⟨cat, hcat, rfl⟩ := List.mem_map.mp he
  have hn : df.rows.length ≠ 0 := fun h0 => h (List.length_eq_zero.mp h0)
  have hpos : 0 < df.rows.length := Nat.pos_of_ne_zero hn
  have hkn : categoryCount df (presentCols df cat.2) ≤ df.rows.length :=
    List.countP_le_length _
  refine ⟨hkn, (categoryCount df (presentCols df cat.2) : ℚ) / (df.rows.length : ℚ) * 100,
    ?_, ?_, ?_, rfl⟩
  · show categoryShare df (presentCols df cat.2) = _
    rw [categoryShare, meanOfCount, if_neg hn]
    rfl
  · exact mul_nonneg (div_nonneg (Nat.cast_nonneg _) (Nat.cast_nonneg _)) (by norm_num)
  · have h1 : (categoryCount df (presentCols df cat.2) : ℚ) / (df.rows.length : ℚ) ≤ 1 := by
      rw [div_le_one (by exact_mod_cast hpos)]
      exact_mod_cast hkn
    calc (categoryCount df (presentCols df cat.2) : ℚ) / (df.rows.length : ℚ) * 100
        ≤ 1 * 100 := mul_le_mul_of_nonneg_right h1 (by norm_num)
      _ = 100 := by norm_num

theorem C10_witness :
    dfA.rows ≠ [] ∧
    rowProg ∈ agg_skill_categories dfA ∧
    (rowProg.count ≤ dfA.rows.length ∧
     ∃ q : ℚ, rowProg.share = some q ∧ 0 ≤ q ∧ q ≤ 100 ∧
       q = (rowProg.count : ℚ) / (dfA.rows.length : ℚ) * 100) :=
  ⟨by decide, by with_unfolding_all decide,
   C10_category_bounds dfA (by decide) rowProg (by with_unfolding_all decide)⟩

/-- C2: a posting contributes exactly 1 to a category's count in
`agg_skill_categories` when at least one of the category's member skill
flags present in the schema is true, and 0 otherwise — a logical OR over
the member flags, not a sum, however many of them are true. -/
theorem C2_category_or_semantics (cols : List String) (r : Posting) (rs : List Posting)
    (cat : String × List String) (hcat : cat ∈ SKILL_CATEGORIES)
    (e : CategoryRow) (he : e ∈ agg_skill_categories ⟨cols, r :: rs⟩)
    (hname : e.skill_category = cat.1) :
    e.count =
      (if ∃ s ∈ cat.2, ("skill_" ++ s) ∈ cols ∧
           flagOf ⟨cols, r :: rs⟩ r ("skill_" ++ s) = true then 1 else 0)
      + categoryCount ⟨cols, rs⟩ (presentCols ⟨cols, rs⟩ cat.2) := by
  rw [agg_skill_categories, mem_sortValuesDescNa] at he
  obtain ⟨cat2, hcat2, rfl⟩ := List.mem_map.mp he
  obtain ⟨hcat2mem, -⟩ := List.mem_filter.mp hcat2
  have hnames : (SKILL_CATEGORIES.map Prod.fst).Nodup := by decide
  have heq : cat2 = cat :=
    List.inj_on_of_nodup_map hnames hcat2mem hcat hname
  subst heq
  show categoryCount ⟨cols, r :: rs⟩ (presentCols ⟨cols, r :: rs⟩ cat2.2) = _
  have hiff : (mentionedAny ⟨cols, r :: rs⟩ (presentCols ⟨cols, r :: rs⟩ cat2.2) r = true)
      ↔ (∃ s ∈ cat2.2, ("skill_" ++ s) ∈ cols ∧
          flagOf ⟨cols, r :: rs⟩ r ("skill_" ++ s) = true) := by
    simp only [mentionedAny, presentCols, List.any_eq_true, List.mem_filter,
      List.mem_map]
    constructor
    · rintro ⟨c, ⟨⟨s, hs, rfl⟩, hcon⟩, hflag⟩
      exact ⟨s, hs, by simpa using hcon, hflag⟩
    · rintro ⟨s, hs, hmem, hflag⟩
      exact ⟨"skill_" ++ s, ⟨⟨s, hs, rfl⟩, by simpa using hmem⟩, hflag⟩
  rw [categoryCount, List.countP_cons, Nat.add_comm,
    if_congr hiff rfl rfl]
  rfl

theorem C2_witness :
    ("Programming", ["sql", "python", "r"]) ∈ SKILL_CATEGORIES ∧
    rowProg ∈ agg_skill_categories ⟨["skill_sql", "skill_python"], [pA]⟩ ∧
    rowProg.count =
      (if ∃ s ∈ ("Programming", ["sql", "python", "r"]).2,
           ("skill_" ++ s) ∈ ["skill_sql", "skill_python"] ∧
           flagOf ⟨["skill_sql", "skill_python"], [pA]⟩ pA ("skill_" ++ s) = true
       then 1 else 0)
      + categoryCount ⟨["skill_sql", "skill_python"], ([] : List Posting)⟩
          (presentCols ⟨["skill_sql", "skill_python"], ([] : List Posting)⟩
            ("Programming", ["sql", "python", "r"]).2) :=
  ⟨by decide, by with_unfolding_all decide,
   C2_category_or_semantics ["skill_sql", "skill_python"] pA []
     ("Programming", ["sql", "python", "r"]) (by decide) rowProg
     (by with_unfolding_all decide) rfl⟩

end TableauExport
